import Mathlib

/-!
# Verification of the universal-language-server core

A shallow embedding, in Lean 4, of the core of the server:

* `src/server/src/core.rs` — the `Format` enumeration, the conversion engine
  (`ConversionCore::convert`) and the validation entry point
  (`ConversionCore::validate`);
* `src/server/src/document_store.rs` — the `Document` entity and the
  `DocumentStore` (upsert/get);
* `src/server/src/formats/toml.rs` — `validate_toml`.

External crates (pulldown-cmark's Markdown renderer, scraper's HTML
extraction, serde_json's `Display` for values) are not code of this
repository; the embedding is parametric in them (`RenderLibs`), and every
parametric theorem below holds for every instantiation.  serde_json's
*parser* is modelled concretely (`serdeParse`), because the failure
behaviour of JSON-sourced conversions depends on which strings parse and on
the shape of the parsed value.

Rust's `i32` document version is modelled as an `Int` kept in the
two's-complement 32-bit range: every write goes through `wrapI32`, the
release-build semantics of `i32` addition (`self.version += 1` wraps from
`i32::MAX` to `i32::MIN` in release builds; debug builds panic at the same
point, so in neither build does the increment stay `+1` there).  Timestamps
(`chrono::Utc::now()`) and freshly generated UUIDs are nondeterministic
inputs and are passed to the store operations as explicit arguments.
-/

namespace ULSP

/-! ## Format (src/server/src/core.rs, lines 12-40) -/

/-- Supported conversion formats (`enum Format`). -/
inductive Format where
  | markdown
  | html
  | json
deriving DecidableEq, Repr

/-- The error taxonomy of the core.  The Rust code uses `anyhow!` with fixed
message prefixes; the spec names the classes `UnsupportedFormat` and
`ParseError`.  `unsupportedFormat` carries the offending input string
(`anyhow!("Unsupported format: {}", s)`); `parseError` carries the fixed
prefix of the message (`anyhow!("Failed to parse JSON: {}", e)` — the
underlying parser's text is appended in Rust and is not modelled). -/
inductive CoreError where
  | unsupportedFormat (s : String)
  | parseError (msg : String)
deriving DecidableEq, Repr

/-- Rust `str::to_lowercase`, restricted to the ASCII range (the alias table
matched against is pure ASCII; `Char.toLower` lower-cases exactly the ASCII
letters). -/
def lowerStr (s : String) : String :=
  String.mk (s.data.map Char.toLower)

/-- `Format::from_str` (core.rs lines 23-30): lower-case the input, match it
against the alias table, otherwise fail with `Unsupported format: {s}`. -/
def Format.from_str (s : String) : Except CoreError Format :=
  if lowerStr s = "markdown" ∨ lowerStr s = "md" then .ok .markdown
  else if lowerStr s = "html" ∨ lowerStr s = "htm" then .ok .html
  else if lowerStr s = "json" then .ok .json
  else .error (.unsupportedFormat s)

/-- `Format::extension` (core.rs lines 33-39). -/
def Format.extension : Format → String
  | .markdown => "md"
  | .html => "html"
  | .json => "json"

/-! ## A model of serde_json parsing

`serde_json::from_str` is an external crate, but the failure behaviour of the
JSON-sourced conversions in core.rs depends on which strings are valid JSON
and on whether the top-level value is an object, so it is modelled concretely:
`Json` mirrors `serde_json::Value` (numbers are kept as their source lexeme —
no claim depends on numeric value), and `serdeParse` is a recursive-descent
JSON parser (standard grammar: the same strings are accepted; the decoding of
`\uXXXX` escapes is simplified to a single code point). -/

/-- `serde_json::Value`. -/
inductive Json where
  | null
  | bool (b : Bool)
  | num (lexeme : String)
  | str (s : String)
  | arr (elems : List Json)
  | obj (fields : List (String × Json))

/-- JSON insignificant whitespace. -/
def jsonWs (c : Char) : Bool :=
  c = ' ' || c = '\t' || c = '\n' || c = '\r'

/-- Drop leading JSON whitespace. -/
def skipWs : List Char → List Char
  | [] => []
  | c :: cs => if jsonWs c then skipWs cs else c :: cs

/-- Value of one hexadecimal digit. -/
def hexVal (c : Char) : Option Nat :=
  if '0' ≤ c ∧ c ≤ '9' then some (c.toNat - '0'.toNat)
  else if 'a' ≤ c ∧ c ≤ 'f' then some (c.toNat - 'a'.toNat + 10)
  else if 'A' ≤ c ∧ c ≤ 'F' then some (c.toNat - 'A'.toNat + 10)
  else none

/-- Body of a JSON string literal, the opening quote already consumed:
returns the decoded characters and the input after the closing quote.  Fuel
is the remaining input length plus one (each step consumes at least one
character). -/
def parseStringBody : Nat → List Char → Option (List Char × List Char)
  | 0, _ => none
  | _ + 1, [] => none
  | fuel + 1, c :: cs =>
    if c = '"' then some ([], cs)
    else if c = '\\' then
      match cs with
      | [] => none
      | e :: cs' =>
        if e = 'u' then
          match cs' with
          | h1 :: h2 :: h3 :: h4 :: cs'' =>
            match hexVal h1, hexVal h2, hexVal h3, hexVal h4 with
            | some a, some b, some c4, some d =>
              (parseStringBody fuel cs'').map fun p =>
                (Char.ofNat (((a * 16 + b) * 16 + c4) * 16 + d) :: p.1, p.2)
            | _, _, _, _ => none
          | _ => none
        else
          let esc : Option Char :=
            if e = '"' then some '"'
            else if e = '\\' then some '\\'
            else if e = '/' then some '/'
            else if e = 'n' then some '\n'
            else if e = 't' then some '\t'
            else if e = 'r' then some '\r'
            else if e = 'b' then some (Char.ofNat 8)
            else if e = 'f' then some (Char.ofNat 12)
            else none
          match esc with
          | some ch => (parseStringBody fuel cs').map fun p => (ch :: p.1, p.2)
          | none => none
    else if c.toNat < 32 then none
    else (parseStringBody fuel cs).map fun p => (c :: p.1, p.2)

/-- Longest prefix of decimal digits, and the rest. -/
def digitsSpan : List Char → List Char × List Char
  | [] => ([], [])
  | c :: cs =>
    if c.isDigit then
      let p := digitsSpan cs
      (c :: p.1, p.2)
    else ([], c :: cs)

/-- Optional fraction part (`.` followed by at least one digit). -/
def parseFrac (cs : List Char) : Option (List Char × List Char) :=
  match cs with
  | '.' :: rest =>
    match digitsSpan rest with
    | ([], _) => none
    | (ds, r) => some ('.' :: ds, r)
  | _ => some ([], cs)

/-- Optional exponent part (`e`/`E`, optional sign, at least one digit). -/
def parseExp (cs : List Char) : Option (List Char × List Char) :=
  match cs with
  | [] => some ([], [])
  | c :: rest =>
    if c = 'e' ∨ c = 'E' then
      let p : List Char × List Char :=
        match rest with
        | '+' :: r => (['+'], r)
        | '-' :: r => (['-'], r)
        | _ => ([], rest)
      match digitsSpan p.2 with
      | ([], _) => none
      | (ds, r) => some (c :: (p.1 ++ ds), r)
    else some ([], c :: rest)

/-- A JSON number lexeme (grammar of RFC 8259: optional minus, `0` or a
nonzero-led digit run, optional fraction, optional exponent). -/
def parseNumberLex (cs : List Char) : Option (List Char × List Char) := do
  let sp : List Char × List Char :=
    match cs with
    | '-' :: rest => (['-'], rest)
    | _ => ([], cs)
  match sp.2 with
  | [] => none
  | c :: rest =>
    if c = '0' then do
      let (f, r1) ← parseFrac rest
      let (e, r2) ← parseExp r1
      some (sp.1 ++ '0' :: (f ++ e), r2)
    else if c.isDigit then do
      let d := digitsSpan rest
      let (f, r1) ← parseFrac d.2
      let (e, r2) ← parseExp r1
      some (sp.1 ++ c :: d.1 ++ f ++ e, r2)
    else none

mutual

/-- A JSON value, leading whitespace allowed; fuel decreases on every nested
value so any fuel at least `2 * length + 4` suffices. -/
def parseVal : Nat → List Char → Option (Json × List Char)
  | 0, _ => none
  | fuel + 1, cs =>
    match skipWs cs with
    | [] => none
    | c :: rest =>
      if c = '"' then
        (parseStringBody (rest.length + 1) rest).map fun p => (Json.str (String.mk p.1), p.2)
      else if c = '{' then
        match skipWs rest with
        | '}' :: r => some (Json.obj [], r)
        | r => (parseMembers fuel r).map fun p => (Json.obj p.1, p.2)
      else if c = '[' then
        match skipWs rest with
        | ']' :: r => some (Json.arr [], r)
        | r => (parseItems fuel r).map fun p => (Json.arr p.1, p.2)
      else if c = 't' then
        if ['r', 'u', 'e'].isPrefixOf rest then some (Json.bool true, rest.drop 3) else none
      else if c = 'f' then
        if ['a', 'l', 's', 'e'].isPrefixOf rest then some (Json.bool false, rest.drop 4) else none
      else if c = 'n' then
        if ['u', 'l', 'l'].isPrefixOf rest then some (Json.null, rest.drop 3) else none
      else
        (parseNumberLex (c :: rest)).map fun p => (Json.num (String.mk p.1), p.2)

/-- Comma-separated array items up to the closing `]`. -/
def parseItems : Nat → List Char → Option (List Json × List Char)
  | 0, _ => none
  | fuel + 1, cs => do
    let (j, r) ← parseVal fuel cs
    match skipWs r with
    | ',' :: r2 => do
      let (js, r3) ← parseItems fuel r2
      some (j :: js, r3)
    | ']' :: r2 => some ([j], r2)
    | _ => none

/-- Comma-separated `"key": value` members up to the closing `}`. -/
def parseMembers : Nat → List Char → Option (List (String × Json) × List Char)
  | 0, _ => none
  | fuel + 1, cs =>
    match skipWs cs with
    | '"' :: rest => do
      let (k, r1) ← parseStringBody (rest.length + 1) rest
      match skipWs r1 with
      | ':' :: r2 => do
        let (v, r3) ← parseVal fuel r2
        match skipWs r3 with
        | ',' :: r4 => do
          let (kvs, r5) ← parseMembers fuel r4
          some ((String.mk k, v) :: kvs, r5)
        | '}' :: r4 => some ([(String.mk k, v)], r4)
        | _ => none
      | _ => none
    | _ => none

end

/-- `serde_json::from_str::<serde_json::Value>`: the whole input, up to
leading/trailing whitespace, must be one JSON value. -/
def serdeParse (s : String) : Option Json :=
  match parseVal (2 * s.length + 4) s.data with
  | some (j, rest) => if (skipWs rest).isEmpty then some j else none
  | none => none

/-! ## Conversion engine (src/server/src/core.rs, lines 42-281) -/

/-- `ConversionRequest` (core.rs lines 43-48). -/
structure ConversionRequest where
  content : String
  «from» : Format
  «to» : Format
deriving Repr

/-- `ConversionResponse` (core.rs lines 50-57). -/
structure ConversionResponse where
  content : String
  «from» : Format
  «to» : Format
  warnings : List String
deriving Repr

/-- The primitives the conversion engine takes from crates outside this
repository.  Their bodies are pure Rust library code with no repository
logic; each is total in the crate (and typed total here):

* `markdownToHtmlFn` — `markdown_to_html` renders through pulldown-cmark
  (core.rs lines 104-109), a total `&str -> String` render.
* `htmlExtractMarkdownFn` — the scraper-based body of `html_to_markdown`
  (core.rs lines 118-176): forgiving `Html::parse_document`, then heading /
  paragraph / list / code extraction with the full-text fallback, trimmed.
  Every fallible step inside is guarded (`if let Ok`) or cannot fail (fixed
  valid selectors), and the function returns `Ok` unconditionally.
* `htmlToJsonFn` — the body of `html_to_json` (core.rs lines 179-210):
  scraper extraction of title/content/headings into a string-keyed,
  string-valued map, then `serde_json::to_string_pretty`, which cannot fail
  on such a map.
* `displayValueFn` — `serde_json::Value`'s `Display`, used by
  `json_to_markdown` for the `"**{key}**: {value}"` lines.
* `htmlParseErrorsFn` — the `errors` list of scraper's forgiving
  `Html::parse_document`, used by `validate` for HTML.

Every parametric theorem below holds for every instantiation of these. -/
structure RenderLibs where
  markdownToHtmlFn : String → String
  htmlExtractMarkdownFn : String → String
  htmlToJsonFn : String → String
  displayValueFn : Json → String
  htmlParseErrorsFn : String → List String

/-- Rust `str::trim` on a character list (ASCII whitespace; the inputs the
claims touch are ASCII). -/
def trimChars (cs : List Char) : List Char :=
  ((cs.dropWhile Char.isWhitespace).reverse.dropWhile Char.isWhitespace).reverse

/-- `HashMap::get` on the parsed object's fields. -/
def lookupField (data : List (String × Json)) (k : String) : Option Json :=
  match data with
  | [] => none
  | (k', v) :: rest => if k' = k then some v else lookupField rest k

/-- `HashMap::insert`: replace the value under an existing key in place,
append a new key. -/
def insertKV (data : List (String × Json)) (k : String) (v : Json) :
    List (String × Json) :=
  match data with
  | [] => [(k, v)]
  | (k', v') :: rest =>
    if k' = k then (k, v) :: rest else (k', v') :: insertKV rest k v

/-- `serde_json::from_str::<HashMap<String, serde_json::Value>>`: the content
must parse as JSON *and* the top-level value must be an object; its members
are collected into the map (duplicate keys: last value wins). -/
def parseMap (s : String) : Option (List (String × Json)) :=
  match serdeParse s with
  | some (Json.obj kvs) => some (kvs.foldl (fun acc kv => insertKV acc kv.1 kv.2) [])
  | _ => none

namespace ConversionCore

/-- `ConversionCore::markdown_to_html` (core.rs lines 104-109). -/
def markdown_to_html (L : RenderLibs) (markdown : String) : String :=
  L.markdownToHtmlFn markdown

/-- `ConversionCore::html_to_markdown` (core.rs lines 118-176): the scraper
extraction (see `RenderLibs`); the Rust function returns `Ok`
unconditionally. -/
def html_to_markdown (L : RenderLibs) (html_content : String) :
    Except CoreError String :=
  .ok (L.htmlExtractMarkdownFn html_content)

/-- `ConversionCore::html_to_json` (core.rs lines 179-210): scraper
extraction serialized by `serde_json::to_string_pretty`, which cannot fail on
the string-keyed map the function builds (see `RenderLibs`). -/
def html_to_json (L : RenderLibs) (html_content : String) :
    Except CoreError String :=
  .ok (L.htmlToJsonFn html_content)

/-- `ConversionCore::markdown_to_json` (core.rs lines 112-115): render to
HTML, then HTML→JSON extraction. -/
def markdown_to_json (L : RenderLibs) (markdown : String) :
    Except CoreError String :=
  html_to_json L (markdown_to_html L markdown)

/-- `ConversionCore::json_to_markdown` (core.rs lines 213-241): deserialize
as a string-keyed map (`Failed to parse JSON` otherwise), then emit the
`title` string field as a heading, the `content` string field verbatim, and
every other field except `type` as a `**key**: value` line; the result is
trimmed. -/
def json_to_markdown (L : RenderLibs) (json_content : String) :
    Except CoreError String :=
  match parseMap json_content with
  | none => .error (.parseError "Failed to parse JSON")
  | some data =>
    let titlePart :=
      match lookupField data "title" with
      | some (Json.str t) => "# " ++ t ++ "\n\n"
      | _ => ""
    let contentPart :=
      match lookupField data "content" with
      | some (Json.str c) => c ++ "\n\n"
      | _ => ""
    let rest := data.filter fun kv =>
      kv.1 != "title" && kv.1 != "content" && kv.1 != "type"
    let restPart := String.join (rest.map fun kv =>
      "**" ++ kv.1 ++ "**: " ++ L.displayValueFn kv.2 ++ "\n\n")
    .ok (String.mk (trimChars (titlePart ++ contentPart ++ restPart).data))

/-- `ConversionCore::json_to_html` (core.rs lines 244-247): JSON→Markdown,
then Markdown→HTML. -/
def json_to_html (L : RenderLibs) (json_content : String) :
    Except CoreError String :=
  (json_to_markdown L json_content).map (markdown_to_html L)

/-- `ConversionCore::convert` (core.rs lines 64-101): dispatch on the
`(from, to)` pair; the HTML→Markdown branch pushes the fidelity warning
before converting; the three same-format pairs return the content unchanged;
the warnings list is empty in every other branch. -/
def convert (L : RenderLibs) (request : ConversionRequest) :
    Except CoreError ConversionResponse :=
  match request.«from», request.«to» with
  | .markdown, .html =>
    .ok { content := markdown_to_html L request.content,
          «from» := request.«from», «to» := request.«to», warnings := [] }
  | .markdown, .json =>
    (markdown_to_json L request.content).map fun c =>
      { content := c, «from» := request.«from», «to» := request.«to», warnings := [] }
  | .html, .markdown =>
    (html_to_markdown L request.content).map fun c =>
      { content := c, «from» := request.«from», «to» := request.«to»,
        warnings := ["HTML to Markdown conversion may lose some formatting"] }
  | .html, .json =>
    (html_to_json L request.content).map fun c =>
      { content := c, «from» := request.«from», «to» := request.«to», warnings := [] }
  | .json, .markdown =>
    (json_to_markdown L request.content).map fun c =>
      { content := c, «from» := request.«from», «to» := request.«to», warnings := [] }
  | .json, .html =>
    (json_to_html L request.content).map fun c =>
      { content := c, «from» := request.«from», «to» := request.«to», warnings := [] }
  | .markdown, .markdown =>
    .ok { content := request.content, «from» := request.«from», «to» := request.«to»,
          warnings := [] }
  | .html, .html =>
    .ok { content := request.content, «from» := request.«from», «to» := request.«to»,
          warnings := [] }
  | .json, .json =>
    .ok { content := request.content, «from» := request.«from», «to» := request.«to»,
          warnings := [] }

/-- `ConversionCore::validate` (core.rs lines 250-280).  Markdown: one
diagnostic when the content is the empty string (`content.is_empty()`, no
trimming).  HTML: one diagnostic per error of the forgiving parse (Rust
formats each as `HTML parse error: {:?}`).  JSON: one diagnostic when the
content does not parse (Rust appends serde's message to `Invalid JSON: `).
The Rust function returns `Ok` in every branch. -/
def validate (L : RenderLibs) (content : String) (format : Format) :
    Except CoreError (List String) :=
  match format with
  | .markdown => .ok (if content = "" then ["Document is empty"] else [])
  | .html => .ok ((L.htmlParseErrorsFn content).map fun e => "HTML parse error: " ++ e)
  | .json =>
    .ok (match serdeParse content with
         | some _ => []
         | none => ["Invalid JSON"])

end ConversionCore

/-- A concrete instantiation of the external primitives, used only to state
closed witnesses and counterexamples (the parametric theorems hold for every
instantiation, so any concrete `RenderLibs` will do; the JSON-sourced paths
these closed statements exercise never consult the fields). -/
def refLibs : RenderLibs where
  markdownToHtmlFn := fun s => s
  htmlExtractMarkdownFn := fun s => s
  htmlToJsonFn := fun _ => "\x7b\"type\": \"html\"\x7d"
  displayValueFn := fun _ => ""
  htmlParseErrorsFn := fun _ => []

/-! ## Document store (src/server/src/document_store.rs)

`DashMap`'s `entry` API serializes the read-modify-write on one key; the
sequential embedding models one such atomic step.  `Uuid::new_v4()` and
`chrono::Utc::now()` are nondeterministic inputs, passed explicitly
(`freshId`, `now`); timestamps are abstract `Nat` instants. -/

/-- Two's-complement wrap into the `i32` range: the value of an `i32`
arithmetic result in a Rust release build.  `wrapI32 x = x` exactly when
`-2^31 ≤ x < 2^31`. -/
def wrapI32 (x : Int) : Int :=
  (x + 2 ^ 31) % 2 ^ 32 - 2 ^ 31

/-- `Document` (document_store.rs lines 11-27).  `version: i32` is an `Int`
in the two's-complement 32-bit range: it is written only as the literal `1`
(`Document::new`) or through `wrapI32` (`Document.update_content`). -/
structure Document where
  id : String
  uri : String
  content : String
  language : String
  version : Int
  created_at : Nat
  modified_at : Nat
deriving DecidableEq, Repr

/-- `Document::new` (document_store.rs lines 31-42): a fresh id, version 1,
both timestamps set to the creation instant. -/
def Document.new (uri content language : String) (freshId : String) (now : Nat) :
    Document :=
  { id := freshId, uri := uri, content := content, language := language,
    version := 1, created_at := now, modified_at := now }

/-- `Document::update_content` (document_store.rs lines 45-49): replace the
content, increment the version with `i32` arithmetic (`self.version += 1`,
which wraps at `i32::MAX` in release builds), refresh `modified_at`; every
other field is untouched. -/
def Document.update_content (d : Document) (content : String) (now : Nat) :
    Document :=
  { d with
    content := content
    version := wrapI32 (d.version + 1)
    modified_at := now }

/-- The store's map, URI-keyed (`DashMap<String, Document>`), as an
association list without duplicate keys in its reachable states. -/
abbrev DocumentStore := List (String × Document)

/-- Map lookup by URI (`DashMap::get`). -/
def DocumentStore.get (store : DocumentStore) (uri : String) : Option Document :=
  match store with
  | [] => none
  | (k, d) :: rest => if k = uri then some d else DocumentStore.get rest uri

/-- Write the entry under `uri` (replace in place, or append a new entry):
the write half of `DashMap::entry(uri).and_modify(..).or_insert_with(..)`. -/
def DocumentStore.setEntry (store : DocumentStore) (uri : String) (d : Document) :
    DocumentStore :=
  match store with
  | [] => [(uri, d)]
  | (k, e) :: rest =>
    if k = uri then (uri, d) :: rest
    else (k, e) :: DocumentStore.setEntry rest uri d

/-- `DocumentStore::upsert` (document_store.rs lines 86-93) as one atomic
read-modify-write on the key `uri`: modify the existing document with
`update_content` (the `language` argument is not consulted) or insert
`Document::new`; return a clone of the stored document together with the new
store state. -/
def DocumentStore.upsert (store : DocumentStore) (uri content language : String)
    (freshId : String) (now : Nat) : Document × DocumentStore :=
  match store.get uri with
  | some d =>
    let d' := d.update_content content now
    (d', store.setEntry uri d')
  | none =>
    let d := Document.new uri content language freshId now
    (d, store.setEntry uri d)

/-! ## TOML validation (src/server/src/formats/toml.rs, lines 21-34) -/

/-- Rust `str::contains` with a string pattern: the pattern occurs as a
contiguous substring. -/
def strContainsSub (pat : List Char) : List Char → Bool
  | [] => pat.isEmpty
  | c :: cs => pat.isPrefixOf (c :: cs) || strContainsSub pat cs

/-- `validate_toml` (formats/toml.rs lines 21-34): the empty-document check
(`toml.trim().is_empty()`), then the tab check — flagged when the content
contains a tab character **and** does not contain the substring `'''`
anywhere (`toml.contains('\t') && !toml.contains("'''")`).  The Rust
function returns `Ok` unconditionally. -/
def validate_toml (toml : String) : Except CoreError (List String) :=
  let d1 := if (trimChars toml.data).isEmpty then ["TOML document is empty"] else []
  let d2 :=
    if toml.data.contains '\t' && !strContainsSub "'''".data toml.data then
      ["TOML should use spaces for indentation outside of strings"]
    else []
  .ok (d1 ++ d2)

/-! ## Store theorems -/

/-- Reading back the key just written (`setEntry` is `DashMap`'s write on
that key). -/
theorem DocumentStore.get_setEntry (store : DocumentStore) (uri : String) (d : Document) :
    (store.setEntry uri d).get uri = some d := by
  induction store with
  | nil => simp [DocumentStore.setEntry, DocumentStore.get]
  | cons kv rest ih =>
    obtain ⟨k, e⟩ := kv
    by_cases h : k = uri
    · subst h; simp [DocumentStore.setEntry, DocumentStore.get]
    · simp [DocumentStore.setEntry, DocumentStore.get, h, ih]

/-- A concrete stored document, for closed store statements. -/
def demoDoc : Document := Document.new "file:///a.md" "# Hello" "markdown" "id-0" 0

/-- A concrete one-document store. -/
def demoStore : DocumentStore := [("file:///a.md", demoDoc)]

/-- `n` successive `upsert` calls for one URI, starting from the empty
store: the state that reaches the `i32` wrap point through the public API. -/
def iterUpserts : Nat → DocumentStore
  | 0 => []
  | n + 1 => ((iterUpserts n).upsert "file:///a.md" "x" "markdown" "id-0" 0).2

/-- Closed form for `iterUpserts`: after `n + 1` upserts the stored version
is the `i32` value of `n + 1`. -/
theorem iterUpserts_get (n : Nat) :
    (iterUpserts (n + 1)).get "file:///a.md" =
      some { id := "id-0", uri := "file:///a.md", content := "x",
             language := "markdown", version := wrapI32 ((n : Int) + 1),
             created_at := 0, modified_at := 0 } := by
  induction n with
  | zero => decide
  | succ k ih =>
    have hw : wrapI32 (wrapI32 ((k : Int) + 1) + 1) = wrapI32 (((k : Int) + 1) + 1) := by
      unfold wrapI32; omega
    show ((iterUpserts (k + 1)).upsert "file:///a.md" "x" "markdown" "id-0" 0).2.get
        "file:///a.md" = _
    push_cast
    simp [DocumentStore.upsert, ih, Document.update_content,
      DocumentStore.get_setEntry, hw]

/-- C1 counterexample: the claim's "increments version by exactly 1 (never
decreases, no gaps)" fails at the `i32` wrap point, and that point is
reachable through the public API alone: after `2^31 - 1` upserts to one URI
the stored version is `i32::MAX = 2147483647`, and the next upsert stores
and returns version `-2147483648` — a decrease (`self.version += 1` on `i32`
wraps in release builds; debug builds panic at the same upsert). -/
theorem upsert_version_wrap_counterexample :
    ((iterUpserts (2 ^ 31 - 1)).get "file:///a.md").map Document.version =
      some 2147483647 ∧
    ((iterUpserts (2 ^ 31 - 1)).upsert "file:///a.md" "x" "markdown" "id-0" 0).1.version =
      -2147483648 ∧
    ((iterUpserts (2 ^ 31)).get "file:///a.md").map Document.version =
      some (-2147483648) := by
  have h := iterUpserts_get 2147483646
  have h2 := iterUpserts_get 2147483647
  have e : (2147483646 : Nat) + 1 = 2 ^ 31 - 1 := by norm_num
  have e2 : (2147483647 : Nat) + 1 = 2 ^ 31 := by norm_num
  have hv : wrapI32 (((2147483646 : Nat) : Int) + 1) = 2147483647 := by
    unfold wrapI32; omega
  have hv2 : wrapI32 (((2147483647 : Nat) : Int) + 1) = -2147483648 := by
    unfold wrapI32; omega
  rw [e] at h
  rw [e2] at h2
  have hup : ∀ (st : DocumentStore) (d : Document), st.get "file:///a.md" = some d →
      (st.upsert "file:///a.md" "x" "markdown" "id-0" 0).1 = d.update_content "x" 0 := by
    intro st d hd
    unfold DocumentStore.upsert
    rw [hd]
  refine ⟨?_, ?_, ?_⟩
  · rw [h, hv]; rfl
  · rw [hup _ _ h]
    show wrapI32 (wrapI32 (((2147483646 : Nat) : Int) + 1) + 1) = -2147483648
    unfold wrapI32
    omega
  · rw [h2, hv2]; rfl

/-- C1 (amended): the first `upsert` for a URI creates a document with
version 1 (its `language` and both timestamps from the call); every
subsequent `upsert` replaces the content, sets `modified_at` to the call
instant, and increments the version with `i32` arithmetic — which is an
increment by exactly 1, never a decrease, whenever the stored version is
below `i32::MAX`; and the returned document is exactly the state stored
under the URI. -/
theorem upsert_spec (store : DocumentStore) (uri content language freshId : String)
    (now : Nat) :
    (store.upsert uri content language freshId now).1.content = content ∧
    (store.upsert uri content language freshId now).1.modified_at = now ∧
    (store.upsert uri content language freshId now).2.get uri =
      some (store.upsert uri content language freshId now).1 ∧
    (store.get uri = none →
      (store.upsert uri content language freshId now).1.version = 1 ∧
      (store.upsert uri content language freshId now).1.uri = uri ∧
      (store.upsert uri content language freshId now).1.language = language ∧
      (store.upsert uri content language freshId now).1.created_at = now) ∧
    (∀ d, store.get uri = some d →
      (store.upsert uri content language freshId now).1.version =
        wrapI32 (d.version + 1)) ∧
    (∀ d, store.get uri = some d → -2147483648 ≤ d.version → d.version < 2147483647 →
      (store.upsert uri content language freshId now).1.version = d.version + 1) := by
  have hwrap : ∀ x : Int, -2147483648 ≤ x → x < 2147483647 → wrapI32 (x + 1) = x + 1 := by
    intro x h1 h2; unfold wrapI32; omega
  cases h : store.get uri
  · simp [DocumentStore.upsert, h, Document.update_content, Document.new,
      DocumentStore.get_setEntry]
  · simp [DocumentStore.upsert, h, Document.update_content, Document.new,
      DocumentStore.get_setEntry]
    exact fun h1 h2 => hwrap _ h1 h2

/-- C1 witness: both branches at concrete inputs — a fresh upsert creates
version 1, and an upsert on a stored version-1 document increments it to
exactly its version + 1 = 2, with the nested hypotheses discharged at the
stored document. -/
theorem upsert_spec_witness :
    (DocumentStore.upsert [] "file:///test.md" "# Hello" "markdown" "id-0" 3).1.version = 1 ∧
    (DocumentStore.upsert demoStore "file:///a.md" "new text" "markdown" "id-1" 7).1.version =
      demoDoc.version + 1 ∧
    demoDoc.version = 1 ∧
    (DocumentStore.upsert demoStore "file:///a.md" "new text" "markdown" "id-1" 7).1.content =
      "new text" ∧
    (DocumentStore.upsert demoStore "file:///a.md" "new text" "markdown" "id-1" 7).2.get
        "file:///a.md" =
      some (DocumentStore.upsert demoStore "file:///a.md" "new text" "markdown" "id-1" 7).1 :=
  ⟨((upsert_spec [] "file:///test.md" "# Hello" "markdown" "id-0" 3).2.2.2.1 rfl).1,
   (upsert_spec demoStore "file:///a.md" "new text" "markdown" "id-1" 7).2.2.2.2.2 demoDoc
     rfl (by decide) (by decide),
   rfl,
   (upsert_spec demoStore "file:///a.md" "new text" "markdown" "id-1" 7).1,
   (upsert_spec demoStore "file:///a.md" "new text" "markdown" "id-1" 7).2.2.1⟩

/-- C9: an `upsert` on an existing URI leaves `id`, `uri`, `language` and
`created_at` unchanged — in particular the `language` argument of the call is
ignored — and changes only `content`, `version` (through the wrapping `i32`
increment) and `modified_at`. -/
theorem upsert_frame_spec (store : DocumentStore) (uri content language freshId : String)
    (now : Nat) (d : Document) (h : store.get uri = some d) :
    (store.upsert uri content language freshId now).1.id = d.id ∧
    (store.upsert uri content language freshId now).1.uri = d.uri ∧
    (store.upsert uri content language freshId now).1.language = d.language ∧
    (store.upsert uri content language freshId now).1.created_at = d.created_at ∧
    (store.upsert uri content language freshId now).1.content = content ∧
    (store.upsert uri content language freshId now).1.version = wrapI32 (d.version + 1) ∧
    (store.upsert uri content language freshId now).1.modified_at = now := by
  simp [DocumentStore.upsert, h, Document.update_content]

/-- C9 at a concrete input: the update passes language `"json"`, and the
stored document keeps `"markdown"`. -/
theorem upsert_frame_witness :
    (DocumentStore.upsert demoStore "file:///a.md" "new text" "json" "id-1" 7).1.id =
        demoDoc.id ∧
    (DocumentStore.upsert demoStore "file:///a.md" "new text" "json" "id-1" 7).1.uri =
        demoDoc.uri ∧
    (DocumentStore.upsert demoStore "file:///a.md" "new text" "json" "id-1" 7).1.language =
        demoDoc.language ∧
    (DocumentStore.upsert demoStore "file:///a.md" "new text" "json" "id-1" 7).1.created_at =
        demoDoc.created_at ∧
    (DocumentStore.upsert demoStore "file:///a.md" "new text" "json" "id-1" 7).1.content =
        "new text" ∧
    (DocumentStore.upsert demoStore "file:///a.md" "new text" "json" "id-1" 7).1.version =
        wrapI32 (demoDoc.version + 1) ∧
    (DocumentStore.upsert demoStore "file:///a.md" "new text" "json" "id-1" 7).1.modified_at =
        7 :=
  upsert_frame_spec demoStore "file:///a.md" "new text" "json" "id-1" 7 demoDoc rfl

/-! ## Conversion engine theorems -/

/-- C3: for every format and every content string, a same-format conversion
succeeds and returns the content unchanged with an empty warnings list. -/
theorem convert_same_format (L : RenderLibs) (x : String) (f : Format) :
    ConversionCore.convert L { content := x, «from» := f, «to» := f } =
      .ok { content := x, «from» := f, «to» := f, warnings := [] } := by
  cases f <;> rfl

/-- C3 instantiated at the request of core.rs's `test_same_format_conversion`. -/
theorem convert_same_format_witness :
    ConversionCore.convert refLibs { content := "# Test", «from» := .markdown, «to» := .markdown } =
      .ok { content := "# Test", «from» := .markdown, «to» := .markdown, warnings := [] } :=
  convert_same_format refLibs "# Test" .markdown

/-- C5: every HTML→Markdown conversion succeeds and carries a non-empty
warnings list (the fidelity warning is pushed unconditionally in that
branch). -/
theorem convert_html_to_markdown_warns (L : RenderLibs) (x : String) :
    ∃ r, ConversionCore.convert L { content := x, «from» := .html, «to» := .markdown } = .ok r ∧
      r.warnings ≠ [] :=
  ⟨_, rfl, by simp⟩

/-- C5 at the spec's example input. -/
theorem convert_html_to_markdown_warns_witness :
    ∃ r, ConversionCore.convert refLibs
        { content := "<div><p>Test</p></div>", «from» := .html, «to» := .markdown } = .ok r ∧
      r.warnings ≠ [] :=
  convert_html_to_markdown_warns refLibs "<div><p>Test</p></div>"

/-- C6: `Format::from_str` accepts exactly the aliases of the lower-cased
input — markdown/md, html/htm, json — and fails with `UnsupportedFormat`
carrying the original string on every other input. -/
theorem format_from_str_spec (s : String) :
    (Format.from_str s = .ok .markdown ↔ (lowerStr s = "markdown" ∨ lowerStr s = "md")) ∧
    (Format.from_str s = .ok .html ↔ (lowerStr s = "html" ∨ lowerStr s = "htm")) ∧
    (Format.from_str s = .ok .json ↔ lowerStr s = "json") ∧
    (lowerStr s ≠ "markdown" → lowerStr s ≠ "md" → lowerStr s ≠ "html" →
      lowerStr s ≠ "htm" → lowerStr s ≠ "json" →
      Format.from_str s = .error (.unsupportedFormat s)) := by
  unfold Format.from_str
  split_ifs with h1 h2 h3
  · rcases h1 with h1 | h1 <;> simp_all
  · rcases h2 with h2 | h2 <;> simp_all
  · simp_all
  · simp_all

/-- C6 at the spec's failing example. -/
theorem format_from_str_witness :
    (Format.from_str "bogus" = .ok .markdown ↔
      (lowerStr "bogus" = "markdown" ∨ lowerStr "bogus" = "md")) ∧
    (Format.from_str "bogus" = .ok .html ↔
      (lowerStr "bogus" = "html" ∨ lowerStr "bogus" = "htm")) ∧
    (Format.from_str "bogus" = .ok .json ↔ lowerStr "bogus" = "json") ∧
    (lowerStr "bogus" ≠ "markdown" → lowerStr "bogus" ≠ "md" → lowerStr "bogus" ≠ "html" →
      lowerStr "bogus" ≠ "htm" → lowerStr "bogus" ≠ "json" →
      Format.from_str "bogus" = .error (.unsupportedFormat "bogus")) :=
  format_from_str_spec "bogus"

/-- C4 counterexample: `"[1]"` parses as valid JSON (a top-level array), yet
JSON→Markdown conversion fails — and `"not json"` is malformed JSON, yet the
JSON→JSON conversion succeeds.  Both contradict "fails with a ParseError
exactly when the source format is JSON and the content does not parse as
valid JSON". -/
theorem convert_json_exactness_counterexample :
    serdeParse "[1]" = some (Json.arr [Json.num "1"]) ∧
    ConversionCore.convert refLibs { content := "[1]", «from» := .json, «to» := .markdown } =
      .error (.parseError "Failed to parse JSON") ∧
    serdeParse "not json" = none ∧
    ConversionCore.convert refLibs { content := "not json", «from» := .json, «to» := .json } =
      .ok { content := "not json", «from» := .json, «to» := .json, warnings := [] } :=
  ⟨rfl, rfl, rfl, rfl⟩

/-- C4 amended: a conversion fails (always with `ParseError`) exactly when
the source format is JSON, the target differs, and the content does not
deserialize as a string-keyed JSON object (valid JSON with a non-object top
level also fails); same-format JSON conversion never parses and always
succeeds; every Markdown- or HTML-sourced conversion succeeds on every
input. -/
theorem convert_failure_characterization (L : RenderLibs) (s : String) :
    ((∃ e, ConversionCore.convert L { content := s, «from» := .json, «to» := .markdown } =
        .error e) ↔ parseMap s = none) ∧
    ((∃ e, ConversionCore.convert L { content := s, «from» := .json, «to» := .html } =
        .error e) ↔ parseMap s = none) ∧
    (ConversionCore.convert L { content := s, «from» := .json, «to» := .json } =
      .ok { content := s, «from» := .json, «to» := .json, warnings := [] }) ∧
    (∀ t e, ConversionCore.convert L { content := s, «from» := .json, «to» := t } = .error e →
      e = .parseError "Failed to parse JSON") ∧
    (∀ t, ∃ r, ConversionCore.convert L { content := s, «from» := .markdown, «to» := t } =
      .ok r) ∧
    (∀ t, ∃ r, ConversionCore.convert L { content := s, «from» := .html, «to» := t } = .ok r) := by
  refine ⟨?_, ?_, rfl, ?_, ?_, ?_⟩
  · cases h : parseMap s <;>
      simp [ConversionCore.convert, ConversionCore.json_to_markdown, h, Except.map]
  · cases h : parseMap s <;>
      simp [ConversionCore.convert, ConversionCore.json_to_html,
        ConversionCore.json_to_markdown, ConversionCore.markdown_to_html, h, Except.map]
  · intro t e h2
    cases t <;> rw [ConversionCore.convert] at h2 <;> cases h : parseMap s <;>
      simp_all [ConversionCore.json_to_html, ConversionCore.json_to_markdown,
        ConversionCore.markdown_to_html, Except.map]
  · intro t
    cases t <;>
      exact ⟨_, rfl⟩
  · intro t
    cases t <;>
      exact ⟨_, rfl⟩

/-- C4 amended, instantiated at malformed input `"\x7b"`. -/
theorem convert_failure_characterization_witness :
    ((∃ e, ConversionCore.convert refLibs { content := "\x7b", «from» := .json, «to» := .markdown } =
        .error e) ↔ parseMap "\x7b" = none) ∧
    ((∃ e, ConversionCore.convert refLibs { content := "\x7b", «from» := .json, «to» := .html } =
        .error e) ↔ parseMap "\x7b" = none) ∧
    (ConversionCore.convert refLibs { content := "\x7b", «from» := .json, «to» := .json } =
      .ok { content := "\x7b", «from» := .json, «to» := .json, warnings := [] }) ∧
    (∀ t e, ConversionCore.convert refLibs { content := "\x7b", «from» := .json, «to» := t } =
        .error e → e = .parseError "Failed to parse JSON") ∧
    (∀ t, ∃ r, ConversionCore.convert refLibs { content := "\x7b", «from» := .markdown, «to» := t } =
      .ok r) ∧
    (∀ t, ∃ r, ConversionCore.convert refLibs { content := "\x7b", «from» := .html, «to» := t } =
      .ok r) :=
  convert_failure_characterization refLibs "\x7b"

/-- C10: when the content parses as valid JSON whose top-level value is not
an object, JSON→Markdown and JSON→HTML both fail with `ParseError`: the
reconstruction deserializes into a string-keyed map. -/
theorem json_nonobject_parse_error (L : RenderLibs) (s : String) (j : Json)
    (hparse : serdeParse s = some j) (hobj : ∀ kvs, j ≠ Json.obj kvs) :
    ConversionCore.convert L { content := s, «from» := .json, «to» := .markdown } =
      .error (.parseError "Failed to parse JSON") ∧
    ConversionCore.convert L { content := s, «from» := .json, «to» := .html } =
      .error (.parseError "Failed to parse JSON") := by
  have hm : parseMap s = none := by
    unfold parseMap
    rw [hparse]
    cases j <;> first | rfl | exact absurd rfl (hobj _)
  constructor <;>
    simp [ConversionCore.convert, ConversionCore.json_to_html,
      ConversionCore.json_to_markdown, hm, Except.map]

/-- C10 at the concrete non-object input `"[1]"`. -/
theorem json_nonobject_parse_error_witness :
    ConversionCore.convert refLibs { content := "[1]", «from» := .json, «to» := .markdown } =
      .error (.parseError "Failed to parse JSON") ∧
    ConversionCore.convert refLibs { content := "[1]", «from» := .json, «to» := .html } =
      .error (.parseError "Failed to parse JSON") :=
  json_nonobject_parse_error refLibs "[1]" (Json.arr [Json.num "1"]) rfl
    (fun _ h => Json.noConfusion h)

/-! ## Validation theorems -/

/-- C7 counterexample: a whitespace-only Markdown document has trimmed
length zero, yet `validate` returns an empty diagnostic list — the code
checks `content.is_empty()`, without trimming. -/
theorem validate_markdown_whitespace_counterexample :
    trimChars " ".data = [] ∧
    ConversionCore.validate refLibs " " .markdown = .ok [] :=
  ⟨rfl, rfl⟩

/-- C7 amended: `validate(content, Markdown)` returns exactly the
"Document is empty" diagnostic when the content string itself is empty (no
trimming), and an empty list — no other diagnostic — for every non-empty
content, including whitespace-only content. -/
theorem validate_markdown_empty_check (L : RenderLibs) (s : String) :
    (ConversionCore.validate L s .markdown = .ok ["Document is empty"] ↔ s = "") ∧
    (s ≠ "" → ConversionCore.validate L s .markdown = .ok []) := by
  constructor
  · by_cases h : s = "" <;> simp [ConversionCore.validate, h]
  · intro h
    simp [ConversionCore.validate, h]

/-- C7 amended, instantiated at the spec's passing example. -/
theorem validate_markdown_empty_check_witness :
    (ConversionCore.validate refLibs "# ok" .markdown = .ok ["Document is empty"] ↔
      "# ok" = "") ∧
    ("# ok" ≠ "" → ConversionCore.validate refLibs "# ok" .markdown = .ok []) :=
  validate_markdown_empty_check refLibs "# ok"

/-- C8 counterexample: the document `'''a'''\n<TAB>key = 1` contains a tab
character outside any triple-quoted string, yet `validate_toml` returns no
diagnostics: the presence of `'''` anywhere in the document suppresses the
tab check. -/
theorem validate_toml_suppressed_tab_counterexample :
    ("'''a'''\n\tkey = 1").data.contains '\t' = true ∧
    strContainsSub "'''".data ("'''a'''\n\tkey = 1").data = true ∧
    validate_toml "'''a'''\n\tkey = 1" = .ok [] :=
  ⟨rfl, rfl, rfl⟩

/-- C8 amended: `validate_toml` always succeeds, flags "document is empty"
exactly when the trimmed content is empty, and flags the tab-indentation
diagnostic exactly when the content contains a tab character **and** the
substring `'''` appears nowhere in the document (any triple-quote anywhere
suppresses the tab check, even for tabs outside triple-quoted strings). -/
theorem validate_toml_spec (s : String) :
    ∃ ds, validate_toml s = .ok ds ∧
      ("TOML should use spaces for indentation outside of strings" ∈ ds ↔
        (s.data.contains '\t' = true ∧ strContainsSub "'''".data s.data = false)) ∧
      ("TOML document is empty" ∈ ds ↔ trimChars s.data = []) := by
  refine ⟨_, rfl, ?_, ?_⟩ <;>
  · by_cases h1 : (trimChars s.data).isEmpty <;>
      by_cases h2 : (s.data.contains '\t' && !strContainsSub "'''".data s.data) = true <;>
      simp_all [Bool.and_eq_true, Bool.not_eq_true', List.isEmpty_iff]

/-- C8 amended, instantiated at a tab-indented document with no
triple-quoted string. -/
theorem validate_toml_spec_witness :
    ∃ ds, validate_toml "\tkey = 1" = .ok ds ∧
      ("TOML should use spaces for indentation outside of strings" ∈ ds ↔
        ("\tkey = 1").data.contains '\t' = true ∧
          strContainsSub "'''".data ("\tkey = 1").data = false) ∧
      ("TOML document is empty" ∈ ds ↔ trimChars ("\tkey = 1").data = []) :=
  validate_toml_spec "\tkey = 1"

/-! ## Concrete evaluations of the embedding -/

example : serdeParse "[1]" = some (.arr [.num "1"]) := rfl
example : serdeParse "\x7b\"key\": \"value\"\x7d" = some (.obj [("key", .str "value")]) := rfl
example : serdeParse "\x7b\"key\": invalid\x7d" = none := rfl
example : serdeParse "not json" = none := rfl
example : serdeParse " \x7b \"a\" : [1, true, null] \x7d " =
    some (.obj [("a", .arr [.num "1", .bool true, .null])]) := rfl
example : serdeParse "-1.5e3" = some (.num "-1.5e3") := rfl
example : serdeParse "\x7b" = none := rfl
example : serdeParse "\"str\"" = some (.str "str") := rfl
example :
    ConversionCore.convert refLibs { content := "# Test", «from» := .markdown, «to» := .markdown } =
      .ok { content := "# Test", «from» := .markdown, «to» := .markdown, warnings := [] } := rfl
example :
    ConversionCore.convert refLibs { content := "[1]", «from» := .json, «to» := .markdown } =
      .error (.parseError "Failed to parse JSON") := rfl
example :
    ConversionCore.convert refLibs { content := "not json", «from» := .json, «to» := .json } =
      .ok { content := "not json", «from» := .json, «to» := .json, warnings := [] } := rfl
example :
    ConversionCore.convert refLibs
      { content := "\x7b\"title\": \"T\", \"content\": \"c\"\x7d", «from» := .json, «to» := .markdown } =
      .ok { content := "# T\n\nc", «from» := .json, «to» := .markdown, warnings := [] } := rfl
example : ConversionCore.validate refLibs " " .markdown = .ok [] := rfl
example : ConversionCore.validate refLibs "" .markdown = .ok ["Document is empty"] := rfl
example : ConversionCore.validate refLibs "\x7b invalid json \x7d" .json = .ok ["Invalid JSON"] := rfl
example : ConversionCore.validate refLibs "\x7b\"k\": \"v\"\x7d" .json = .ok [] := rfl
example : validate_toml "" = .ok ["TOML document is empty"] := rfl
example : validate_toml "key = \"value\"" = .ok [] := rfl
example : validate_toml "\tkey = 1" =
    .ok ["TOML should use spaces for indentation outside of strings"] := rfl
example : validate_toml "'''a'''\n\tkey = 1" = .ok [] := rfl
example : Format.from_str "MD" = .ok .markdown := rfl
example : Format.from_str "Markdown" = .ok .markdown := rfl
example : Format.from_str "md" = .ok .markdown := rfl
example : Format.from_str "htm" = .ok .html := rfl
example : Format.from_str "JSON" = .ok .json := rfl
example : Format.from_str "bogus" = .error (.unsupportedFormat "bogus") := rfl
example : Format.markdown.extension = "md" := rfl

end ULSP
